import Mathlib

set_option linter.unusedVariables false

/-! Verification of the login-lockout layer of cpovc_access
    (source file cpovc_access/decorators.py), shallowly embedded in Lean.

    Modelling conventions:
    * Python strings are lists of characters (`Str`), timestamps are naturals;
    * the Django `AccessAttempt` table is an explicit store (`Db`) with an
      auto-increment primary-key counter, threaded through each operation;
    * Python exceptions propagating out of the decorators are the error side
      of `Except PyExc`;
    * module-level settings are a `Config` record passed to each function. -/

abbrev Str := List Char

/-- Whitespace characters removed by Python's str.strip method. -/
def isPySpace (c : Char) : Bool :=
  c == ' ' || c == '\t' || c == '\n' || c == '\r' || c == '\x0b' || c == '\x0c'

/-- Python str.strip: drop whitespace from both ends. -/
def pyStrip (l : Str) : Str :=
  ((l.dropWhile isPySpace).reverse.dropWhile isPySpace).reverse

/-- Split a character list on a separator character; the result is never empty
    (splitting the empty list yields one empty component), matching Python's
    str.split behaviour. -/
def splitOnChar (sep : Char) : Str → List Str
  | [] => [[]]
  | c :: rest =>
    match splitOnChar sep rest with
    | [] => [[]]
    | p :: ps => if c == sep then [] :: p :: ps else (c :: p) :: ps

/-- Python's s.split(sep, 1)[0]: the part of the string before the first
    occurrence of the separator. -/
def beforeComma (l : Str) : Str := l.takeWhile (fun c => c != ',')

def isDecDigit (c : Char) : Bool := decide ('0' ≤ c) && decide (c ≤ '9')

def isOctDigit (c : Char) : Bool := decide ('0' ≤ c) && decide (c ≤ '7')

def isHexDigitB (c : Char) : Bool :=
  isDecDigit c || (decide ('a' ≤ c) && decide (c ≤ 'f'))
    || (decide ('A' ≤ c) && decide (c ≤ 'F'))

def decVal (c : Char) : Nat := c.toNat - 48

def hexVal (c : Char) : Nat :=
  if isDecDigit c then c.toNat - 48
  else if decide ('a' ≤ c) then c.toNat - 87
  else c.toNat - 55

def foldDigits (base : Nat) (g : Char → Nat) (l : Str) : Nat :=
  l.foldl (fun acc c => acc * base + g c) 0

/-- One numeral of the numbers-and-dots notation accepted by the C library
    inet_aton that backs Python's socket.inet_aton: decimal, 0x/0X hexadecimal,
    or leading-0 octal, needing at least one digit ("0x" alone is rejected; a
    lone "0" is octal zero). -/
def parsePart (l : Str) : Option Nat :=
  match l with
  | [] => none
  | c :: rest =>
    if c == '0' then
      match rest with
      | 'x' :: h =>
        if !h.isEmpty && h.all isHexDigitB then some (foldDigits 16 hexVal h) else none
      | 'X' :: h =>
        if !h.isEmpty && h.all isHexDigitB then some (foldDigits 16 hexVal h) else none
      | _ => if rest.all isOctDigit then some (foldDigits 8 decVal rest) else none
    else
      if (c :: rest).all isDecDigit then some (foldDigits 10 decVal (c :: rest)) else none

/-- The component-count and value bounds of inet_aton: one to four numerals,
    where every numeral but the last must fit in one byte and the last fills
    the remaining bytes of the 32-bit address. -/
def partsOk : List (Option Nat) → Bool
  | [some v] => decide (v < 4294967296)
  | [some a, some v] => decide (a < 256) && decide (v < 16777216)
  | [some a, some b, some v] => decide (a < 256) && decide (b < 256) && decide (v < 65536)
  | [some a, some b, some c, some v] =>
    decide (a < 256) && decide (b < 256) && decide (c < 256) && decide (v < 256)
  | _ => false

/-- Acceptance by socket.inet_aton, modelled from its documented
    numbers-and-dots semantics (the platform quirk of tolerating trailing
    whitespace is immaterial here because every caller strips its input). -/
def inet_aton_ok (l : Str) : Bool :=
  partsOk ((splitOnChar '.' l).map parsePart)

/-- decorators.py, is_valid_ip: True iff socket.inet_aton accepts the
    stripped candidate (any exception means invalid). -/
def is_valid_ip (ip_address : Str) : Bool :=
  inet_aton_ok (pyStrip ip_address)

/-- decorators.py, PRIVATE_IPS_PREFIX: the literal string starts checked
    against each candidate address. -/
def privatePrefixes : List Str :=
  [("10.".data), ("172.".data), ("192.".data), ("127.".data)]

/-- Python's candidate.startswith(PRIVATE_IPS_PREFIX): does the candidate
    start with any of the private-network prefixes? -/
def startsWithPrivate (l : Str) : Bool :=
  privatePrefixes.any (fun p => p.isPrefixOf l)

/-- An HTTP request as the decorators see it: the META mapping (headers plus
    server variables), the POST and GET form data (association lists), the
    request method, and whether the session is authenticated. -/
structure Request where
  meta : List (Str × Str)
  POST : List (Str × Str)
  GET : List (Str × Str)
  methodPOST : Bool
  user_authenticated : Bool
deriving DecidableEq

/-- Python's request.META.get(key, default). -/
def metaGet (req : Request) (key : Str) (dft : Str) : Str :=
  match req.meta.lookup key with
  | some v => v
  | none => dft

/-- Python's request.POST.get(field, None). -/
def postGetOpt (req : Request) (key : Str) : Option Str :=
  req.POST.lookup key

/-- The scanning loop of get_ip_address_from_request over the comma-separated
    entries of the forwarded-for header: skip entries starting with a private
    prefix, skip invalid entries, stop at the first survivor. -/
def xffScan : List Str → Str
  | [] => []
  | ip :: rest =>
    if startsWithPrivate ip then xffScan rest
    else if !is_valid_ip ip then xffScan rest
    else ip

/-- decorators.py, get_ip_address_from_request: best-effort client address in
    non-reverse-proxy mode, falling back to the loopback address. -/
def get_ip_address_from_request (req : Request) : Str :=
  let x_forwarded_for := metaGet req ("HTTP_X_FORWARDED_FOR".data) []
  let ip_address :=
    if !x_forwarded_for.isEmpty && !x_forwarded_for.contains ',' then
      if !startsWithPrivate x_forwarded_for && is_valid_ip x_forwarded_for then
        pyStrip x_forwarded_for
      else []
    else
      xffScan ((splitOnChar ',' x_forwarded_for).map pyStrip)
  let ip_address :=
    if ip_address.isEmpty then
      let x_real_ip := metaGet req ("HTTP_X_REAL_IP".data) []
      if !x_real_ip.isEmpty then
        if !startsWithPrivate x_real_ip && is_valid_ip x_real_ip then
          pyStrip x_real_ip
        else []
      else []
    else ip_address
  let ip_address :=
    if ip_address.isEmpty then
      let remote_addr := metaGet req ("REMOTE_ADDR".data) []
      if !remote_addr.isEmpty then
        let remote_ip := startsWithPrivate remote_addr
        if !remote_ip && is_valid_ip remote_addr then pyStrip remote_addr
        else if remote_ip && is_valid_ip remote_addr then pyStrip remote_addr
        else []
      else []
    else ip_address
  if ip_address.isEmpty then ("127.0.0.1".data) else ip_address

/-- The Python exceptions the decorators can raise while resolving an
    address: the two configuration Warnings of get_ip, and the TypeError from
    the membership test on an unconfigured (None) whitelist. -/
inductive PyExc where
  | warningMissingHeader
  | warningNotOnWhitelist
  | typeError
deriving DecidableEq

/-- The module-level settings snapshot read by decorators.py at import time
    (AXES_* settings with their defaults), plus the presence flag of
    AUTH_PROFILE_MODULE used by is_user_lockable. -/
structure Config where
  FAILURE_LIMIT : Nat
  LOCK_OUT_AT_FAILURE : Bool
  USE_USER_AGENT : Bool
  USERNAME_FORM_FIELD : Str
  PASSWORD_FORM_FIELD : Str
  BEHIND_REVERSE_PROXY : Bool
  BEHIND_REVERSE_PROXY_WITH_DIRECT_ACCESS : Bool
  REVERSE_PROXY_HEADER : Str
  LOCK_OUT_BY_COMBINATION_USER_AND_IP : Bool
  COOLOFF_TIME : Option Nat
  ONLY_WHITELIST : Bool
  IP_WHITELIST : Option (List Str)
  IP_BLACKLIST : Option (List Str)
  AUTH_PROFILE_MODULE : Bool
deriving DecidableEq

/-- decorators.py, should_lock_out_by_combination_user_and_ip. -/
def should_lock_out_by_combination_user_and_ip (cfg : Config) : Bool :=
  cfg.LOCK_OUT_BY_COMBINATION_USER_AND_IP

/-- Python truthiness of the COOLOFF_TIME setting: None and a zero duration
    are falsy, a nonzero duration is truthy. -/
def cooloffTruthy (cfg : Config) : Option Nat :=
  match cfg.COOLOFF_TIME with
  | none => none
  | some c => if c == 0 then none else some c

/-- decorators.py, get_ip: non-proxy mode delegates to
    get_ip_address_from_request; reverse-proxy mode reads the configured
    header, raising a Warning when it is empty and direct access is not
    allowed, and otherwise falling back to REMOTE_ADDR guarded by the
    whitelist (a None whitelist makes that membership test a TypeError). -/
def get_ip (cfg : Config) (req : Request) : Except PyExc Str :=
  if !cfg.BEHIND_REVERSE_PROXY then
    .ok (get_ip_address_from_request req)
  else
    let ip := pyStrip (beforeComma (metaGet req cfg.REVERSE_PROXY_HEADER []))
    if ip.isEmpty then
      if !cfg.BEHIND_REVERSE_PROXY_WITH_DIRECT_ACCESS then
        .error .warningMissingHeader
      else
        let ip2 := metaGet req ("REMOTE_ADDR".data) []
        match cfg.IP_WHITELIST with
        | none => .error .typeError
        | some wl => if !wl.contains ip2 then .error .warningNotOnWhitelist else .ok ip2
    else .ok ip

/-- decorators.py, ip_in_whitelist: membership when a whitelist is
    configured, False otherwise. -/
def ip_in_whitelist (cfg : Config) (ip : Str) : Bool :=
  match cfg.IP_WHITELIST with
  | some wl => wl.contains ip
  | none => false

/-- decorators.py, ip_in_blacklist. -/
def ip_in_blacklist (cfg : Config) (ip : Str) : Bool :=
  match cfg.IP_BLACKLIST with
  | some bl => bl.contains ip
  | none => false

/-- One row of the AccessAttempt table. The numbered primary key and the
    defaults of the fields not passed at creation are modelled from the spec:
    the models module itself is not part of the sources, and the data-model
    section specifies trusted = false unless set at creation and attemptTime
    defaulting to creation time. -/
structure AccessAttempt where
  id : Nat
  user_agent : Str
  ip_address : Str
  username : Option Str
  get_data : Str
  post_data : Str
  http_accept : Str
  path_info : Str
  failures_since_start : Nat
  attempt_time : Nat
  trusted : Bool
deriving DecidableEq

/-- The AccessAttempt store: its rows plus the auto-increment primary-key
    counter (Django primary keys are never reused after a delete). -/
structure Db where
  rows : List AccessAttempt
  seq : Nat
deriving DecidableEq

/-- A well-formed store: distinct primary keys, all below the counter. -/
def dbWf (db : Db) : Prop :=
  (db.rows.map (fun a => a.id)).Nodup ∧ ∀ a ∈ db.rows, a.id < db.seq

instance (db : Db) : Decidable (dbWf db) := by unfold dbWf; infer_instance

/-- Django instance.save() for an existing row: replace the row with the
    same primary key. -/
def db_save (db : Db) (r : AccessAttempt) : Db :=
  { db with rows := db.rows.map (fun x => if x.id == r.id then r else x) }

/-- Django instance.delete(): remove the row with this primary key. -/
def db_delete (db : Db) (i : Nat) : Db :=
  { db with rows := db.rows.filter (fun x => x.id != i) }

/-- Django Model.objects.create(...): append a fresh row under the next
    primary key. -/
def db_create (db : Db) (mk : Nat → AccessAttempt) : Db :=
  { rows := db.rows ++ [mk db.seq], seq := db.seq + 1 }

def dbEmpty : Db := { rows := [], seq := 0 }

/-- One row of the AccessLog audit table, as created by watch_login. -/
structure AccessLog where
  user_agent : Str
  ip_address : Str
  username : Option Str
  http_accept : Str
  path_info : Str
  trusted : Bool
deriving DecidableEq

/-- A user row as far as is_user_lockable probes it: its username, the
    optional nolockout attribute on the user itself, and the optional
    nolockout attribute on its profile (none models every failure to reach
    it: no profile support, missing profile row, missing attribute). -/
structure UserRec where
  username : Option Str
  nolockout : Option Bool
  profile_nolockout : Option Bool
deriving DecidableEq

/-- decorators.py, is_user_lockable: an unresolvable username is lockable;
    a user-level nolockout marker wins; otherwise, with profile support
    enabled, a profile-level marker is consulted; every lookup miss means
    lockable. -/
def is_user_lockable (cfg : Config) (users : List UserRec) (req : Request) : Bool :=
  match users.find? (fun u => u.username == postGetOpt req cfg.USERNAME_FORM_FIELD) with
  | none => true
  | some user =>
    match user.nolockout with
    | some b => !b
    | none =>
      if cfg.AUTH_PROFILE_MODULE then
        match user.profile_nolockout with
        | some b => !b
        | none => true
      else true

/-- decorators.py, query2str: render the key-value pairs, skipping the
    password field, joined by newlines and capped at 1024 characters. -/
def query2str (cfg : Config) (items : List (Str × Str)) : Str :=
  (List.intercalate ('\n' :: [])
    (items.filterMap (fun kv =>
      if kv.1 == cfg.PASSWORD_FORM_FIELD then none else some (kv.1 ++ '=' :: kv.2)))).take 1024

/-- The truncated user-agent string read throughout decorators.py:
    request.META.get(HTTP_USER_AGENT, unknown)[:255]. -/
def uaOf (req : Request) : Str :=
  (metaGet req ("HTTP_USER_AGENT".data) ("<unknown>".data)).take 255

def acceptOf (req : Request) : Str :=
  metaGet req ("HTTP_ACCEPT".data) ("<unknown>".data)

def pathOf (req : Request) : Str :=
  metaGet req ("PATH_INFO".data) ("<unknown>".data)

/-- The submitted username: request.POST.get(USERNAME_FORM_FIELD, None). -/
def usernameOf (cfg : Config) (req : Request) : Option Str :=
  postGetOpt req cfg.USERNAME_FORM_FIELD

/-- Python truthiness of the submitted username (None and the empty string
    are falsy), as tested by create_new_trusted_record. -/
def usernameTruthy (cfg : Config) (req : Request) : Bool :=
  match usernameOf cfg req with
  | none => false
  | some u => !u.isEmpty

/-- decorators.py, _get_user_attempts: search trusted rows under
    user-agent (only with AXES_USE_USER_AGENT) + ip + username; when empty,
    fall back to untrusted rows under ip, plus user-agent only with
    AXES_USE_USER_AGENT, plus username only with combination locking. -/
def _get_user_attempts (cfg : Config) (db : Db) (req : Request) :
    Except PyExc (List AccessAttempt) :=
  match get_ip cfg req with
  | .error e => .error e
  | .ok ip =>
    let username := usernameOf cfg req
    let ua := uaOf req
    let attempts :=
      if cfg.USE_USER_AGENT then
        db.rows.filter (fun a =>
          a.user_agent == ua && a.ip_address == ip && a.username == username && a.trusted)
      else
        db.rows.filter (fun a => a.ip_address == ip && a.username == username && a.trusted)
    if attempts.isEmpty then
      .ok (db.rows.filter (fun a =>
        a.ip_address == ip && a.trusted == false
          && (if cfg.USE_USER_AGENT then a.user_agent == ua else true)
          && (if should_lock_out_by_combination_user_and_ip cfg then a.username == username
              else true)))
    else .ok attempts

/-- The cool-off loop of get_user_attempts over the fetched attempts:
    an expired trusted row is reset to zero failures and saved (the fetched
    instance is mutated in place, so the snapshot reflects the reset); an
    expired untrusted row is deleted and the deletion is flagged. Returns the
    updated store, the snapshot, and the deletion flag. -/
def cleanup_loop (c now : Nat) (db : Db) : List AccessAttempt →
    Db × List AccessAttempt × Bool
  | [] => (db, [], false)
  | a :: rest =>
    if a.attempt_time + c < now then
      if a.trusted then
        let a2 := { a with failures_since_start := 0 }
        let r := cleanup_loop c now (db_save db a2) rest
        (r.1, a2 :: r.2.1, r.2.2)
      else
        let r := cleanup_loop c now (db_delete db a.id) rest
        (r.1, a :: r.2.1, true)
    else
      let r := cleanup_loop c now db rest
      (r.1, a :: r.2.1, r.2.2)

/-- decorators.py, get_user_attempts: fetch the matching attempts, apply
    cool-off cleanup when a cool-off time is configured, and re-run the
    lookup once when rows were deleted. -/
def get_user_attempts (cfg : Config) (db : Db) (req : Request) (now : Nat) :
    Except PyExc (Db × List AccessAttempt) :=
  match _get_user_attempts cfg db req with
  | .error e => .error e
  | .ok attempts =>
    match cooloffTruthy cfg with
    | none => .ok (db, attempts)
    | some c =>
      let r := cleanup_loop c now db attempts
      if r.2.2 then
        match _get_user_attempts cfg r.1 req with
        | .error e => .error e
        | .ok fresh => .ok (r.1, fresh)
      else .ok (r.1, r.2.1)

/-- decorators.py, is_already_locked: whitelist-only and blacklist
    exemptions first, then lock when any fetched attempt has reached the
    failure limit while lock-at-failure is on and the user is lockable.
    Returns the decision together with the (possibly cool-off-cleaned)
    store. -/
def is_already_locked (cfg : Config) (users : List UserRec) (db : Db) (req : Request)
    (now : Nat) : Except PyExc (Bool × Db) :=
  match get_ip cfg req with
  | .error e => .error e
  | .ok ip =>
    if cfg.ONLY_WHITELIST && !ip_in_whitelist cfg ip then .ok (true, db)
    else if ip_in_blacklist cfg ip then .ok (true, db)
    else
      match get_user_attempts cfg db req now with
      | .error e => .error e
      | .ok (db2, attempts) =>
        if attempts.any (fun a =>
            decide (a.failures_since_start ≥ cfg.FAILURE_LIMIT)
              && cfg.LOCK_OUT_AT_FAILURE && is_user_lockable cfg users req) then
          .ok (true, db2)
        else .ok (false, db2)

/-- decorators.py, create_new_failure_records: one fresh untrusted row
    carrying the request metadata and the running failure count. -/
def create_new_failure_records (cfg : Config) (db : Db) (req : Request) (now : Nat)
    (failures : Nat) : Except PyExc Db :=
  match get_ip cfg req with
  | .error e => .error e
  | .ok ip =>
    .ok (db_create db (fun i =>
      { id := i
        user_agent := uaOf req
        ip_address := ip
        username := usernameOf cfg req
        get_data := query2str cfg req.GET
        post_data := query2str cfg req.POST
        http_accept := acceptOf req
        path_info := pathOf req
        failures_since_start := failures
        attempt_time := now
        trusted := false }))

/-- decorators.py, create_new_trusted_record: skipped entirely when the
    submitted username is falsy, otherwise one fresh trusted row with zero
    failures. -/
def create_new_trusted_record (cfg : Config) (db : Db) (req : Request) (now : Nat) :
    Except PyExc Db :=
  match get_ip cfg req with
  | .error e => .error e
  | .ok ip =>
    if !usernameTruthy cfg req then .ok db
    else
      .ok (db_create db (fun i =>
        { id := i
          user_agent := uaOf req
          ip_address := ip
          username := usernameOf cfg req
          get_data := query2str cfg req.GET
          post_data := query2str cfg req.POST
          http_accept := acceptOf req
          path_info := pathOf req
          failures_since_start := 0
          attempt_time := now
          trusted := true }))

/-- The in-place update applied to every fetched attempt row on a failed
    login: append the redacted parameter dumps behind a delimiter line,
    refresh the accept header, path, failure count and attempt time. -/
def update_one (cfg : Config) (req : Request) (now failures : Nat)
    (a : AccessAttempt) : AccessAttempt :=
  { a with
    get_data := a.get_data ++ ("\n---------\n".data) ++ query2str cfg req.GET
    post_data := a.post_data ++ ("\n---------\n".data) ++ query2str cfg req.POST
    http_accept := acceptOf req
    path_info := pathOf req
    failures_since_start := failures
    attempt_time := now }

/-- The failed-login update loop of check_request: save the refreshed copy
    of every fetched row. -/
def update_attempts (cfg : Config) (req : Request) (now failures : Nat) (db : Db) :
    List AccessAttempt → Db
  | [] => db
  | a :: rest =>
    update_attempts cfg req now failures (db_save db (update_one cfg req now failures a)) rest

/-- The successful-login loop of check_request: delete every untrusted
    fetched row, reset and save every trusted one, remembering whether a
    trusted row existed. -/
def success_cleanup (db : Db) : List AccessAttempt → Db × Bool
  | [] => (db, false)
  | a :: rest =>
    if !a.trusted then
      success_cleanup (db_delete db a.id) rest
    else
      let r := success_cleanup (db_save db { a with failures_since_start := 0 }) rest
      (r.1, true)

/-- The trust-revocation loop at the end of check_request: every fetched
    trusted row is deleted and replaced by a fresh untrusted failure row at
    the same failure count. -/
def revoke_trusted (cfg : Config) (req : Request) (now failures : Nat) (db : Db) :
    List AccessAttempt → Except PyExc Db
  | [] => .ok db
  | a :: rest =>
    match create_new_failure_records cfg (db_delete db a.id) req now failures with
    | .error e => .error e
    | .ok db2 => revoke_trusted cfg req now failures db2 rest

/-- decorators.py, check_request: evaluate a classified login outcome,
    update the attempt store, and return False exactly when the request must
    be answered with the lockout response (logout and the lockout signal are
    side effects outside the modelled state). -/
def check_request (cfg : Config) (users : List UserRec) (db : Db) (req : Request)
    (now : Nat) (login_unsuccessful : Bool) : Except PyExc (Bool × Db) :=
  match get_ip cfg req with
  | .error e => .error e
  | .ok ip_address =>
    match get_user_attempts cfg db req now with
    | .error e => .error e
    | .ok (db1, attempts) =>
      let failures0 := attempts.foldl (fun m a => max m a.failures_since_start) 0
      let step : Except PyExc (Nat × Db) :=
        if login_unsuccessful then
          let failures := failures0 + 1
          if attempts.length != 0 then
            .ok (failures, update_attempts cfg req now failures db1 attempts)
          else
            match create_new_failure_records cfg db1 req now failures with
            | .error e => .error e
            | .ok db2 => .ok (failures, db2)
        else
          let r := success_cleanup db1 attempts
          if !r.2 then
            match create_new_trusted_record cfg r.1 req now with
            | .error e => .error e
            | .ok db3 => .ok (0, db3)
          else .ok (0, r.1)
      match step with
      | .error e => .error e
      | .ok (failures, db2) =>
        if decide (failures ≥ cfg.FAILURE_LIMIT) && cfg.LOCK_OUT_AT_FAILURE
            && is_user_lockable cfg users req then
          match revoke_trusted cfg req now failures db2
              (attempts.filter (fun a => a.trusted)) with
          | .error e => .error e
          | .ok db3 => .ok (false, db3)
        else .ok (true, db2)

/-- The success heuristic of watch_login on a POST request: unsuccessful
    iff the handler's response is truthy, has no location header, and did not
    use status 302. A falsy response (None) is classified successful. -/
structure HttpResponse where
  has_location_header : Bool
  status_code : Nat
deriving DecidableEq

def login_unsuccessful_of (resp : Option HttpResponse) : Bool :=
  match resp with
  | none => false
  | some r => !r.has_location_header && r.status_code != 302

/-- The AccessLog row watch_login creates for every POST attempt. -/
def mkAccessLog (cfg : Config) (req : Request) (ip : Str) (trusted : Bool) : AccessLog :=
  { user_agent := uaOf req
    ip_address := ip
    username := usernameOf cfg req
    http_accept := acceptOf req
    path_info := pathOf req
    trusted := trusted }

inductive LoginOutcome where
  | handlerResponse
  | lockoutResponse
deriving DecidableEq

/-- decorators.py, watch_login (decorated_login), for a call that is not the
    re-entrant sentinel: gate on is_already_locked; for POST requests,
    classify the handler's response, write the audit row, run check_request,
    and answer with the lockout response when it reports blocked; non-POST
    requests pass through untouched. -/
def watch_login_step (cfg : Config) (users : List UserRec) (db : Db)
    (logdb : List AccessLog) (req : Request) (now : Nat)
    (resp : Option HttpResponse) : Except PyExc (LoginOutcome × Db × List AccessLog) :=
  match is_already_locked cfg users db req now with
  | .error e => .error e
  | .ok (locked, db0) =>
    if locked then .ok (.lockoutResponse, db0, logdb)
    else if req.methodPOST then
      let login_unsuccessful := login_unsuccessful_of resp
      match get_ip cfg req with
      | .error e => .error e
      | .ok ip =>
        let logdb1 := logdb ++ [mkAccessLog cfg req ip (!login_unsuccessful)]
        match check_request cfg users db0 req now login_unsuccessful with
        | .error e => .error e
        | .ok (allowed, db1) =>
          if allowed then .ok (.handlerResponse, db1, logdb1)
          else .ok (.lockoutResponse, db1, logdb1)
    else .ok (.handlerResponse, db0, logdb)

/-- The default settings of decorators.py (every AXES_* option left at the
    documented default). -/
def axesDefaults : Config :=
  { FAILURE_LIMIT := 3
    LOCK_OUT_AT_FAILURE := true
    USE_USER_AGENT := false
    USERNAME_FORM_FIELD := ("username".data)
    PASSWORD_FORM_FIELD := ("password".data)
    BEHIND_REVERSE_PROXY := false
    BEHIND_REVERSE_PROXY_WITH_DIRECT_ACCESS := false
    REVERSE_PROXY_HEADER := ("HTTP_X_FORWARDED_FOR".data)
    LOCK_OUT_BY_COMBINATION_USER_AND_IP := false
    COOLOFF_TIME := none
    ONLY_WHITELIST := false
    IP_WHITELIST := none
    IP_BLACKLIST := none
    AUTH_PROFILE_MODULE := false }

/-- The attempt lookup as claim C2 and spec section 4.3 word it: an identity
    key of IP, plus username only when combination locking is enabled, plus
    user-agent only when user-agent tracking is enabled; trusted rows under
    that key first, then untrusted rows under the mirrored reduced key. -/
def lookupSpecC2 (cfg : Config) (db : Db) (req : Request) :
    Except PyExc (List AccessAttempt) :=
  match get_ip cfg req with
  | .error e => .error e
  | .ok ip =>
    let keyMatch := fun (a : AccessAttempt) =>
      a.ip_address == ip
        && (if should_lock_out_by_combination_user_and_ip cfg then
              a.username == usernameOf cfg req
            else true)
        && (if cfg.USE_USER_AGENT then a.user_agent == uaOf req else true)
    let primary := db.rows.filter (fun a => keyMatch a && a.trusted)
    if primary.isEmpty then .ok (db.rows.filter (fun a => keyMatch a && !a.trusted))
    else .ok primary

/-- The attempt lookup as the counterexample to C2 forces it to be amended:
    the trusted search keys on IP and always on the submitted username (plus
    user-agent only when user-agent tracking is enabled); only the untrusted
    fallback makes the username component conditional on combination
    locking. -/
def lookupAmendedC2 (cfg : Config) (db : Db) (req : Request) :
    Except PyExc (List AccessAttempt) :=
  match get_ip cfg req with
  | .error e => .error e
  | .ok ip =>
    let primary := db.rows.filter (fun a =>
      a.ip_address == ip && a.username == usernameOf cfg req
        && (if cfg.USE_USER_AGENT then a.user_agent == uaOf req else true)
        && a.trusted)
    if primary.isEmpty then
      .ok (db.rows.filter (fun a =>
        a.ip_address == ip && !a.trusted
          && (if cfg.USE_USER_AGENT then a.user_agent == uaOf req else true)
          && (if should_lock_out_by_combination_user_and_ip cfg then
                a.username == usernameOf cfg req
              else true)))
    else .ok primary

/-- Non-proxy IP resolution as claim C3 words it: scan the forwarded-for
    header (a single value, or the comma-split entries in order, skipping
    private-prefixed or invalid ones and taking the first survivor), then the
    real-client-IP header (rejected when private-prefixed or invalid), then
    the direct connection address, where a private-prefixed but valid address
    is accepted as a last resort, and finally the loopback default. -/
def resolveIpSpec (req : Request) : Str :=
  let xff := metaGet req ("HTTP_X_FORWARDED_FOR".data) []
  let fromForwarded : Option Str :=
    if !xff.isEmpty && !xff.contains ',' then
      if !startsWithPrivate xff && is_valid_ip xff then some (pyStrip xff) else none
    else
      ((splitOnChar ',' xff).map pyStrip).find?
        (fun e => !startsWithPrivate e && is_valid_ip e)
  let fromReal : Option Str :=
    let xr := metaGet req ("HTTP_X_REAL_IP".data) []
    if !xr.isEmpty && !startsWithPrivate xr && is_valid_ip xr then some (pyStrip xr)
    else none
  let fromRemote : Option Str :=
    let ra := metaGet req ("REMOTE_ADDR".data) []
    if !ra.isEmpty && is_valid_ip ra then some (pyStrip ra) else none
  (((fromForwarded).orElse (fun _ => fromReal)).orElse (fun _ => fromRemote)).getD
    ("127.0.0.1".data)

/-- A canonical decimal numeral: digits only, no leading zero unless the
    numeral is the single digit 0. -/
def isCanonDec (p : Str) : Bool :=
  match p with
  | [] => false
  | [c] => isDecDigit c
  | c :: rest => isDecDigit c && c != '0' && rest.all isDecDigit

/-- A dotted-quad IPv4 address as claim C4 words the validity rule: exactly
    four dot-separated canonical decimal components, each at most 255. -/
def isDottedQuad (s : Str) : Bool :=
  match splitOnChar '.' s with
  | [a, b, c, d] =>
    [a, b, c, d].all (fun p => isCanonDec p && decide (foldDigits 10 decVal p ≤ 255))
  | _ => false

instance exceptDecEq {ε α : Type} [DecidableEq ε] [DecidableEq α] :
    DecidableEq (Except ε α)
  | .error e, .error f =>
    if h : e = f then .isTrue (by rw [h]) else .isFalse (fun hc => h (by cases hc; rfl))
  | .error e, .ok y => .isFalse (fun hc => Except.noConfusion hc)
  | .ok x, .error f => .isFalse (fun hc => Except.noConfusion hc)
  | .ok x, .ok y =>
    if h : x = y then .isTrue (by rw [h]) else .isFalse (fun hc => h (by cases hc; rfl))

/-- A plain POST login request: no headers, username bob submitted. -/
def reqPlain : Request :=
  { meta := []
    POST := [(("username".data), ("bob".data))]
    GET := []
    methodPOST := true
    user_authenticated := false }

/-- A POST login request with no submitted form fields at all. -/
def reqAnon : Request :=
  { meta := [], POST := [], GET := [], methodPOST := true, user_authenticated := false }

/-- A trusted attempt row for the same IP as reqPlain but for a different
    username (alice). -/
def recTrustedAlice : AccessAttempt :=
  { id := 0
    user_agent := ("<unknown>".data)
    ip_address := ("127.0.0.1".data)
    username := some ("alice".data)
    get_data := []
    post_data := []
    http_accept := ("<unknown>".data)
    path_info := ("<unknown>".data)
    failures_since_start := 0
    attempt_time := 0
    trusted := true }

def dbTrustedAlice : Db := { rows := [recTrustedAlice], seq := 1 }

/-- A stale untrusted attempt row matching reqPlain's identity key. -/
def recStale : AccessAttempt :=
  { id := 0
    user_agent := ("<unknown>".data)
    ip_address := ("127.0.0.1".data)
    username := some ("bob".data)
    get_data := []
    post_data := []
    http_accept := ("<unknown>".data)
    path_info := ("<unknown>".data)
    failures_since_start := 2
    attempt_time := 0
    trusted := false }

def dbStale : Db := { rows := [recStale], seq := 1 }

def cfgCooloff : Config := { axesDefaults with COOLOFF_TIME := some 5 }

def cfgListy : Config :=
  { axesDefaults with
    ONLY_WHITELIST := true
    IP_WHITELIST := some []
    IP_BLACKLIST := some [("127.0.0.1".data)] }

def cfgProxy : Config := { axesDefaults with BEHIND_REVERSE_PROXY := true }

def cfgProxyDirect : Config :=
  { axesDefaults with
    BEHIND_REVERSE_PROXY := true
    BEHIND_REVERSE_PROXY_WITH_DIRECT_ACCESS := true }

/-- The untrusted failure record created by the first failed attempt of the
    C1 scenario (default settings, empty store). -/
def failRec1 (req : Request) (n : Nat) : AccessAttempt :=
  { id := 0
    user_agent := uaOf req
    ip_address := get_ip_address_from_request req
    username := usernameOf axesDefaults req
    get_data := query2str axesDefaults req.GET
    post_data := query2str axesDefaults req.POST
    http_accept := acceptOf req
    path_info := pathOf req
    failures_since_start := 1
    attempt_time := n
    trusted := false }

def c1Db1 (req : Request) (n1 : Nat) : Db :=
  { rows := [failRec1 req n1], seq := 1 }

def c1Db2 (req : Request) (n1 n2 : Nat) : Db :=
  { rows := [update_one axesDefaults req n2 2 (failRec1 req n1)], seq := 1 }

def c1Db3 (req : Request) (n1 n2 n4 : Nat) : Db :=
  { rows := [update_one axesDefaults req n4 3
      (update_one axesDefaults req n2 2 (failRec1 req n1))], seq := 1 }

theorem get_ip_nonproxy (cfg : Config) (req : Request)
    (h : cfg.BEHIND_REVERSE_PROXY = false) :
    get_ip cfg req = .ok (get_ip_address_from_request req) := by
  simp [get_ip, h]

/-- C7: with allow-list-only mode on and the resolved address off the
    allow-list, or with the resolved address on the deny-list, the
    pre-handler gate reports locked out for every request and every attempt
    store, and returns the store untouched: the exemption checks run before
    any attempt record is consulted. -/
theorem exemptions_c7 (cfg : Config) (users : List UserRec) (db : Db)
    (req : Request) (now : Nat) (ip : Str)
    (hip : get_ip cfg req = .ok ip) :
    (cfg.ONLY_WHITELIST = true → ip_in_whitelist cfg ip = false →
      is_already_locked cfg users db req now = .ok (true, db)) ∧
    (ip_in_blacklist cfg ip = true →
      is_already_locked cfg users db req now = .ok (true, db)) := by
  constructor
  · intro hw hnw
    simp [is_already_locked, hip, hw, hnw]
  · intro hb
    by_cases hw : (cfg.ONLY_WHITELIST && !ip_in_whitelist cfg ip) = true
    · simp [is_already_locked, hip, hw]
    · simp only [Bool.not_eq_true] at hw
      simp [is_already_locked, hip, hw, hb]

theorem exemptions_c7_witness :
    (get_ip cfgListy reqPlain = .ok ("127.0.0.1".data)) ∧
    ((cfgListy.ONLY_WHITELIST = true →
        ip_in_whitelist cfgListy ("127.0.0.1".data) = false →
        is_already_locked cfgListy [] dbStale reqPlain 0 = .ok (true, dbStale)) ∧
      (ip_in_blacklist cfgListy ("127.0.0.1".data) = true →
        is_already_locked cfgListy [] dbStale reqPlain 0 = .ok (true, dbStale))) :=
  ⟨by decide, exemptions_c7 cfgListy [] dbStale reqPlain 0 ("127.0.0.1".data) (by decide)⟩

/-- C8: in reverse-proxy mode with direct access disallowed, an empty
    address from the configured proxy header makes IP resolution raise the
    missing-header configuration Warning, which propagates through the
    pre-handler gate instead of any default address being returned. -/
theorem proxy_missing_header_c8 (cfg : Config) (users : List UserRec) (db : Db)
    (req : Request) (now : Nat)
    (hp : cfg.BEHIND_REVERSE_PROXY = true)
    (hd : cfg.BEHIND_REVERSE_PROXY_WITH_DIRECT_ACCESS = false)
    (he : pyStrip (beforeComma (metaGet req cfg.REVERSE_PROXY_HEADER [])) = []) :
    get_ip cfg req = .error PyExc.warningMissingHeader ∧
    is_already_locked cfg users db req now = .error PyExc.warningMissingHeader := by
  have h1 : get_ip cfg req = .error PyExc.warningMissingHeader := by
    simp [get_ip, hp, hd, he]
  exact ⟨h1, by simp [is_already_locked, h1]⟩

theorem proxy_missing_header_c8_witness :
    (cfgProxy.BEHIND_REVERSE_PROXY = true ∧
      cfgProxy.BEHIND_REVERSE_PROXY_WITH_DIRECT_ACCESS = false ∧
      pyStrip (beforeComma (metaGet reqAnon cfgProxy.REVERSE_PROXY_HEADER [])) = []) ∧
    (get_ip cfgProxy reqAnon = .error PyExc.warningMissingHeader ∧
      is_already_locked cfgProxy [] dbEmpty reqAnon 0 =
        .error PyExc.warningMissingHeader) :=
  ⟨by decide,
    proxy_missing_header_c8 cfgProxy [] dbEmpty reqAnon 0 (by decide) (by decide) (by decide)⟩

/-- C10: in reverse-proxy mode with direct access permitted but no
    allow-list configured, an empty proxy header makes the whitelist
    membership test raise a TypeError rather than the documented
    configuration Warning. -/
theorem direct_access_typeerror_c10 (cfg : Config) (req : Request)
    (hp : cfg.BEHIND_REVERSE_PROXY = true)
    (hd : cfg.BEHIND_REVERSE_PROXY_WITH_DIRECT_ACCESS = true)
    (hw : cfg.IP_WHITELIST = none)
    (he : pyStrip (beforeComma (metaGet req cfg.REVERSE_PROXY_HEADER [])) = []) :
    get_ip cfg req = .error PyExc.typeError ∧
    get_ip cfg req ≠ .error PyExc.warningNotOnWhitelist := by
  have h1 : get_ip cfg req = .error PyExc.typeError := by
    simp [get_ip, hp, hd, hw, he]
  exact ⟨h1, by simp [h1]⟩

theorem direct_access_typeerror_c10_witness :
    (cfgProxyDirect.BEHIND_REVERSE_PROXY = true ∧
      cfgProxyDirect.BEHIND_REVERSE_PROXY_WITH_DIRECT_ACCESS = true ∧
      cfgProxyDirect.IP_WHITELIST = none ∧
      pyStrip (beforeComma (metaGet reqAnon cfgProxyDirect.REVERSE_PROXY_HEADER [])) = []) ∧
    (get_ip cfgProxyDirect reqAnon = .error PyExc.typeError ∧
      get_ip cfgProxyDirect reqAnon ≠ .error PyExc.warningNotOnWhitelist) :=
  ⟨by decide,
    direct_access_typeerror_c10 cfgProxyDirect reqAnon (by decide) (by decide) (by decide)
      (by decide)⟩

/-- C2 fails as stated: with combination locking disabled, the spec-worded
    lookup keys trusted rows on IP alone and finds the trusted row of another
    username at the same address, while the code keys trusted rows on IP and
    username and returns nothing for this store. -/
theorem lookup_key_c2_counterexample :
    _get_user_attempts axesDefaults dbTrustedAlice reqPlain = .ok [] ∧
    lookupSpecC2 axesDefaults dbTrustedAlice reqPlain = .ok [recTrustedAlice] ∧
    _get_user_attempts axesDefaults dbTrustedAlice reqPlain ≠
      lookupSpecC2 axesDefaults dbTrustedAlice reqPlain := by
  refine ⟨by decide, by decide, by decide⟩

/-- C2 amended: the trusted search always keys on IP and the submitted
    username (user-agent only when user-agent tracking is enabled); the
    untrusted fallback keys on IP, user-agent only when user-agent tracking
    is enabled, and username only when combination locking is enabled. -/
theorem lookup_key_c2 (cfg : Config) (db : Db) (req : Request) :
    _get_user_attempts cfg db req = lookupAmendedC2 cfg db req := by
  unfold _get_user_attempts lookupAmendedC2
  cases hip : get_ip cfg req with
  | error e => rfl
  | ok ip =>
    dsimp only
    have hA :
        (if cfg.USE_USER_AGENT = true then
          List.filter (fun a => a.user_agent == uaOf req && a.ip_address == ip
            && a.username == usernameOf cfg req && a.trusted) db.rows
        else
          List.filter (fun a => a.ip_address == ip
            && a.username == usernameOf cfg req && a.trusted) db.rows)
        = List.filter (fun a => a.ip_address == ip && a.username == usernameOf cfg req
            && (if cfg.USE_USER_AGENT = true then a.user_agent == uaOf req else true)
            && a.trusted) db.rows := by
      by_cases hua : cfg.USE_USER_AGENT = true
      · simp only [hua, if_true]
        have hfun : (fun (a : AccessAttempt) => a.user_agent == uaOf req
              && a.ip_address == ip && a.username == usernameOf cfg req && a.trusted)
            = (fun (a : AccessAttempt) => a.ip_address == ip
              && a.username == usernameOf cfg req
              && (a.user_agent == uaOf req) && a.trusted) := by
          funext a
          cases h1 : (a.user_agent == uaOf req) <;>
            cases h2 : (a.ip_address == ip) <;>
            cases h3 : (a.username == usernameOf cfg req) <;>
            cases h4 : a.trusted <;> rfl
        rw [hfun]
      · simp only [Bool.not_eq_true] at hua
        simp only [hua, Bool.false_eq_true, if_false, Bool.and_true]
    have hB : (fun (a : AccessAttempt) => a.ip_address == ip && a.trusted == false
            && (if cfg.USE_USER_AGENT = true then a.user_agent == uaOf req else true)
            && (if should_lock_out_by_combination_user_and_ip cfg = true then
                  a.username == usernameOf cfg req else true))
        = (fun (a : AccessAttempt) => a.ip_address == ip && !a.trusted
            && (if cfg.USE_USER_AGENT = true then a.user_agent == uaOf req else true)
            && (if should_lock_out_by_combination_user_and_ip cfg = true then
                  a.username == usernameOf cfg req else true)) := by
      funext a
      cases h4 : a.trusted <;> rfl
    rw [hA, hB]

theorem isEmpty_false_of_valid (e : Str) (h : is_valid_ip e = true) :
    e.isEmpty = false := by
  cases e with
  | nil => exact absurd h (by decide)
  | cons c r => rfl

theorem pyStrip_isEmpty_of_valid (s : Str) (h : is_valid_ip s = true) :
    (pyStrip s).isEmpty = false := by
  unfold is_valid_ip at h
  cases he : pyStrip s with
  | nil => rw [he] at h; exact absurd h (by decide)
  | cons c r => rfl

theorem xffScan_eq_find (l : List Str) :
    xffScan l = (l.find? (fun e => !startsWithPrivate e && is_valid_ip e)).getD [] := by
  induction l with
  | nil => rfl
  | cons ip rest ih =>
    by_cases h1 : startsWithPrivate ip = true
    · simp [xffScan, List.find?, h1, ih]
    · simp only [Bool.not_eq_true] at h1
      by_cases h2 : is_valid_ip ip = true
      · simp [xffScan, List.find?, h1, h2]
      · simp only [Bool.not_eq_true] at h2
        simp [xffScan, List.find?, h1, h2, ih]

theorem opt_stage_final (s t u : Str) (o p q : Option Str) (d : Str)
    (h1 : s = o.getD []) (i1 : ∀ e, o = some e → e.isEmpty = false)
    (h2 : t = p.getD []) (i2 : ∀ e, p = some e → e.isEmpty = false)
    (h3 : u = q.getD []) (i3 : ∀ e, q = some e → e.isEmpty = false) :
    (if (if (if s.isEmpty then t else s).isEmpty then u
          else (if s.isEmpty then t else s)).isEmpty then d
      else (if (if s.isEmpty then t else s).isEmpty then u
          else (if s.isEmpty then t else s)))
    = ((o.orElse (fun _ => p)).orElse (fun _ => q)).getD d := by
  cases o with
  | some e =>
    have he := i1 e rfl
    subst h1
    simp [he]
  | none =>
    subst h1
    cases p with
    | some e =>
      have he := i2 e rfl
      subst h2
      simp [he]
    | none =>
      subst h2
      cases q with
      | some e =>
        have he := i3 e rfl
        subst h3
        simp [he]
      | none =>
        subst h3
        simp

/-- C3: in non-proxy mode, IP resolution agrees everywhere with the
    resolution order claim C3 describes: the forwarded-for scan, then the
    real-client-IP header, then the direct connection address with the
    private-prefixed-but-valid last resort, then the loopback default; in
    particular it is total. -/
theorem ip_resolution_c3 (req : Request) :
    get_ip_address_from_request req = resolveIpSpec req := by
  unfold get_ip_address_from_request resolveIpSpec
  dsimp only
  apply opt_stage_final
  · -- stage 1 value
    by_cases hc1 : (!(metaGet req (("HTTP_X_FORWARDED_FOR").data) []).isEmpty
        && !(metaGet req (("HTTP_X_FORWARDED_FOR").data) []).contains ',') = true
    · by_cases hc2 : (!startsWithPrivate (metaGet req (("HTTP_X_FORWARDED_FOR").data) [])
          && is_valid_ip (metaGet req (("HTTP_X_FORWARDED_FOR").data) [])) = true
      · simp only [hc1, hc2, if_true, Option.getD_some]
      · simp only [hc1, hc2, if_true, if_false, Bool.false_eq_true, Option.getD_none]
    · simp only [hc1, Bool.false_eq_true, if_false]
      simp only [Bool.not_eq_true] at hc1
      simp [hc1, xffScan_eq_find]
  · -- stage 1 nonemptiness
    intro e he
    by_cases hc1 : (!(metaGet req (("HTTP_X_FORWARDED_FOR").data) []).isEmpty
        && !(metaGet req (("HTTP_X_FORWARDED_FOR").data) []).contains ',') = true
    · rw [if_pos hc1] at he
      by_cases hc2 : (!startsWithPrivate (metaGet req (("HTTP_X_FORWARDED_FOR").data) [])
          && is_valid_ip (metaGet req (("HTTP_X_FORWARDED_FOR").data) [])) = true
      · rw [if_pos hc2] at he
        have hv := ((Bool.and_eq_true _ _).mp hc2).2
        cases he
        exact pyStrip_isEmpty_of_valid _ hv
      · rw [if_neg hc2] at he
        exact absurd he (by simp)
    · rw [if_neg hc1] at he
      have hp := List.find?_some he
      exact isEmpty_false_of_valid e (((Bool.and_eq_true _ _).mp hp).2)
  · -- stage 2 value
    by_cases hxe : (metaGet req (("HTTP_X_REAL_IP").data) []).isEmpty = true
    · simp [hxe]
    · simp only [Bool.not_eq_true] at hxe
      by_cases hc : (!startsWithPrivate (metaGet req (("HTTP_X_REAL_IP").data) [])
          && is_valid_ip (metaGet req (("HTTP_X_REAL_IP").data) [])) = true
      · simp [hxe, hc]
      · simp [hxe, hc]
  · -- stage 2 nonemptiness
    intro e he
    by_cases hcc : (!(metaGet req (("HTTP_X_REAL_IP").data) []).isEmpty
        && !startsWithPrivate (metaGet req (("HTTP_X_REAL_IP").data) [])
        && is_valid_ip (metaGet req (("HTTP_X_REAL_IP").data) [])) = true
    · rw [if_pos hcc] at he
      have hv := ((Bool.and_eq_true _ _).mp hcc).2
      cases he
      exact pyStrip_isEmpty_of_valid _ hv
    · rw [if_neg hcc] at he
      exact absurd he (by simp)
  · -- stage 3 value
    by_cases hre : (metaGet req (("REMOTE_ADDR").data) []).isEmpty = true
    · simp [hre]
    · simp only [Bool.not_eq_true] at hre
      by_cases hpv : startsWithPrivate (metaGet req (("REMOTE_ADDR").data) []) = true
      · by_cases hvv : is_valid_ip (metaGet req (("REMOTE_ADDR").data) []) = true
        · simp [hre, hpv, hvv]
        · simp only [Bool.not_eq_true] at hvv
          simp [hre, hpv, hvv]
      · simp only [Bool.not_eq_true] at hpv
        by_cases hvv : is_valid_ip (metaGet req (("REMOTE_ADDR").data) []) = true
        · simp [hre, hpv, hvv]
        · simp only [Bool.not_eq_true] at hvv
          simp [hre, hpv, hvv]
  · -- stage 3 nonemptiness
    intro e he
    by_cases hcc : (!(metaGet req (("REMOTE_ADDR").data) []).isEmpty
        && is_valid_ip (metaGet req (("REMOTE_ADDR").data) [])) = true
    · rw [if_pos hcc] at he
      have hv := ((Bool.and_eq_true _ _).mp hcc).2
      cases he
      exact pyStrip_isEmpty_of_valid _ hv
    · rw [if_neg hcc] at he
      exact absurd he (by simp)

theorem splitOnChar_ne_nil (sep : Char) (l : Str) : splitOnChar sep l ≠ [] := by
  cases l with
  | nil => simp [splitOnChar]
  | cons c rest =>
    unfold splitOnChar
    cases h : splitOnChar sep rest with
    | nil => simp
    | cons p ps =>
      by_cases hc : (c == sep) = true <;> simp [hc]

theorem mem_splitOnChar (sep : Char) (l : Str) (c : Char) (h : c ∈ l) :
    c = sep ∨ ∃ p, p ∈ splitOnChar sep l ∧ c ∈ p := by
  induction l with
  | nil => cases h
  | cons d rest ih =>
    rcases List.mem_cons.mp h with rfl | hmem
    · by_cases hd : (c == sep) = true
      · exact Or.inl (eq_of_beq hd)
      · right
        unfold splitOnChar
        cases hs : splitOnChar sep rest with
        | nil => exact absurd hs (splitOnChar_ne_nil sep rest)
        | cons p ps =>
          refine ⟨c :: p, ?_, List.mem_cons_self _ _⟩
          simp [hd]
    · rcases ih hmem with hc | ⟨q, hq, hcq⟩
      · exact Or.inl hc
      · right
        unfold splitOnChar
        cases hs : splitOnChar sep rest with
        | nil => exact absurd hs (splitOnChar_ne_nil sep rest)
        | cons p ps =>
          rw [hs] at hq
          by_cases hd : (d == sep) = true
          · refine ⟨q, ?_, hcq⟩
            simp [hd, hq]
          · rcases List.mem_cons.mp hq with rfl | hq2
            · refine ⟨d :: q, ?_, List.mem_cons_of_mem d hcq⟩
              simp [hd]
            · refine ⟨q, ?_, hcq⟩
              simp [hd, hq2]

theorem dropWhile_eq_self_of (q : Char → Bool) (l : Str)
    (h : ∀ c ∈ l, q c = false) : l.dropWhile q = l := by
  cases l with
  | nil => rfl
  | cons c rest => simp [List.dropWhile_cons, h c (List.mem_cons_self c rest)]

theorem pyStrip_eq_self (l : Str) (h : ∀ c ∈ l, isPySpace c = false) :
    pyStrip l = l := by
  unfold pyStrip
  rw [dropWhile_eq_self_of _ _ h,
    dropWhile_eq_self_of _ _ (fun c hc => h c (List.mem_reverse.mp hc)),
    List.reverse_reverse]

theorem canon_chars (p : Str) (h : isCanonDec p = true) :
    ∀ ch ∈ p, isDecDigit ch = true := by
  intro ch hch
  cases p with
  | nil => cases hch
  | cons c rest =>
    cases rest with
    | nil =>
      rcases List.mem_singleton.mp hch with rfl
      exact h
    | cons c2 r2 =>
      unfold isCanonDec at h
      simp only [Bool.and_eq_true] at h
      rcases List.mem_cons.mp hch with rfl | hmem
      · exact h.1.1
      · exact List.all_eq_true.mp h.2 ch hmem

theorem decDigit_not_space (c : Char) (h : isDecDigit c = true) :
    isPySpace c = false := by
  unfold isDecDigit at h
  simp only [Bool.and_eq_true, decide_eq_true_eq] at h
  have h1 := h.1
  unfold isPySpace
  by_contra hc
  simp only [Bool.not_eq_false, Bool.or_eq_true, beq_iff_eq] at hc
  rcases hc with ((((hc | hc) | hc) | hc) | hc) | hc <;> subst hc <;>
    exact absurd h1 (by decide)

theorem parsePart_canon (p : Str) (h : isCanonDec p = true) :
    parsePart p = some (foldDigits 10 decVal p) := by
  cases p with
  | nil => exact absurd h (by decide)
  | cons c rest =>
    cases rest with
    | nil =>
      by_cases hc : (c == '0') = true
      · have hceq : c = '0' := eq_of_beq hc
        subst hceq
        decide
      · have hd : isDecDigit c = true := h
        unfold parsePart
        simp [hc, hd]
    | cons c2 r2 =>
      unfold isCanonDec at h
      simp only [Bool.and_eq_true] at h
      obtain ⟨⟨h1, h2⟩, h3⟩ := h
      have hc : (c == '0') = false := by
        simp only [bne, Bool.not_eq_eq_eq_not, Bool.not_true] at h2
        exact h2
      unfold parsePart
      simp [hc, h1, h3]

/-- C4 fails as stated: is_valid_ip accepts the one-component shorthand
    "127" that socket.inet_aton admits, although it is not a dotted-quad
    IPv4 address. -/
theorem ip_validity_c4_counterexample :
    is_valid_ip (("127").data) = true ∧ isDottedQuad (("127").data) = false := by
  refine ⟨by decide, by decide⟩

/-- C4 amended: every dotted-quad IPv4 address is accepted by the validity
    check, but the converse fails — the check also accepts the other
    numbers-and-dots forms understood by socket.inet_aton, such as "127". -/
theorem ip_validity_c4 (s : Str) (h : isDottedQuad s = true) :
    is_valid_ip s = true := by
  unfold isDottedQuad at h
  split at h
  case h_2 => exact absurd h (by decide)
  case h_1 a b c d hsplit =>
    simp only [List.all_cons, List.all_nil, Bool.and_true, Bool.and_eq_true,
      decide_eq_true_eq] at h
    obtain ⟨⟨ha1, ha2⟩, ⟨hb1, hb2⟩, ⟨hc1, hc2⟩, hd1, hd2⟩ := h
    have hnospace : ∀ ch ∈ s, isPySpace ch = false := by
      intro ch hch
      rcases mem_splitOnChar '.' s ch hch with rfl | ⟨p, hp, hchp⟩
      · decide
      · have hcp : isCanonDec p = true := by
          rw [hsplit] at hp
          simp only [List.mem_cons, List.not_mem_nil, or_false] at hp
          rcases hp with rfl | rfl | rfl | rfl <;> assumption
        exact decDigit_not_space ch (canon_chars p hcp ch hchp)
    have hstrip : pyStrip s = s := pyStrip_eq_self s hnospace
    unfold is_valid_ip inet_aton_ok
    rw [hstrip, hsplit]
    simp only [List.map_cons, List.map_nil, parsePart_canon a ha1, parsePart_canon b hb1,
      parsePart_canon c hc1, parsePart_canon d hd1]
    unfold partsOk
    simp only [Bool.and_eq_true, decide_eq_true_eq]
    exact ⟨⟨⟨Nat.lt_succ_of_le ha2, Nat.lt_succ_of_le hb2⟩, Nat.lt_succ_of_le hc2⟩,
      Nat.lt_succ_of_le hd2⟩

theorem ip_validity_c4_witness :
    isDottedQuad (("203.0.113.9").data) = true ∧
      is_valid_ip (("203.0.113.9").data) = true :=
  ⟨by decide, ip_validity_c4 (("203.0.113.9").data) (by decide)⟩

/-- C9: on a POST request past the lockout gate, a falsy handler response
    (None) is classified as a successful login: the audit row is written with
    trusted = true and check_request runs its successful-login cleanup path,
    even though no redirect header or 302 status was produced. -/
theorem falsy_response_success_c9 (cfg : Config) (users : List UserRec) (db : Db)
    (logdb : List AccessLog) (req : Request) (now : Nat) (db0 : Db) (ip : Str)
    (hg : is_already_locked cfg users db req now = .ok (false, db0))
    (hm : req.methodPOST = true)
    (hip : get_ip cfg req = .ok ip) :
    login_unsuccessful_of none = false ∧
    watch_login_step cfg users db logdb req now none =
      (check_request cfg users db0 req now false).map
        (fun p => ((if p.1 then LoginOutcome.handlerResponse else LoginOutcome.lockoutResponse),
          p.2, logdb ++ [mkAccessLog cfg req ip true])) := by
  refine ⟨rfl, ?_⟩
  unfold watch_login_step
  rw [hg]
  dsimp only
  have hlu : login_unsuccessful_of none = false := rfl
  rw [hlu]
  simp only [hm, if_true, Bool.not_false, Bool.false_eq_true, if_false]
  rw [hip]
  dsimp only
  cases hcr : check_request cfg users db0 req now false with
  | error e => rfl
  | ok p =>
    obtain ⟨allowed, db1⟩ := p
    cases allowed <;> rfl

theorem falsy_response_success_c9_witness :
    (is_already_locked axesDefaults [] dbEmpty reqPlain 0 = .ok (false, dbEmpty) ∧
      reqPlain.methodPOST = true ∧
      get_ip axesDefaults reqPlain = .ok (("127.0.0.1").data)) ∧
    (login_unsuccessful_of none = false ∧
      watch_login_step axesDefaults [] dbEmpty [] reqPlain 0 none =
        (check_request axesDefaults [] dbEmpty reqPlain 0 false).map
          (fun p => ((if p.1 then LoginOutcome.handlerResponse
              else LoginOutcome.lockoutResponse),
            p.2, [] ++ [mkAccessLog axesDefaults reqPlain (("127.0.0.1").data) true]))) :=
  ⟨⟨by decide, by decide, by decide⟩,
    falsy_response_success_c9 axesDefaults [] dbEmpty [] reqPlain 0 dbEmpty
      (("127.0.0.1").data) (by decide) (by decide) (by decide)⟩

theorem db_save_mem_other (db : Db) (r s : AccessAttempt) (hr : r ∈ db.rows)
    (hne : s.id ≠ r.id) : r ∈ (db_save db s).rows := by
  unfold db_save
  have hb : (r.id == s.id) = false := beq_eq_false_iff_ne.mpr (fun he => hne he.symm)
  have hmem := List.mem_map_of_mem (fun x => if x.id == s.id then s else x) hr
  simpa [hb] using hmem

theorem db_save_mem_self (db : Db) (s : AccessAttempt) (x : AccessAttempt)
    (hx : x ∈ db.rows) (hid : x.id = s.id) : s ∈ (db_save db s).rows := by
  unfold db_save
  have hmem := List.mem_map_of_mem (fun y => if y.id == s.id then s else y) hx
  simpa [hid] using hmem

theorem db_delete_mem_other (db : Db) (r : AccessAttempt) (i : Nat) (hr : r ∈ db.rows)
    (hne : r.id ≠ i) : r ∈ (db_delete db i).rows := by
  unfold db_delete
  exact List.mem_filter.mpr ⟨hr, by simpa [bne_iff_ne] using hne⟩

theorem db_delete_id_absent (db : Db) (i : Nat) :
    ∀ r ∈ (db_delete db i).rows, r.id ≠ i := by
  intro r hr
  unfold db_delete at hr
  have h2 := (List.mem_filter.mp hr).2
  simpa [bne_iff_ne] using h2

theorem db_save_id_absent (db : Db) (s : AccessAttempt) (i : Nat)
    (h : ∀ r ∈ db.rows, r.id ≠ i) (hs : s.id ≠ i) :
    ∀ r ∈ (db_save db s).rows, r.id ≠ i := by
  intro r hr
  unfold db_save at hr
  obtain ⟨x, hx, hfx⟩ := List.mem_map.mp hr
  by_cases hb : (x.id == s.id) = true
  · rw [if_pos hb] at hfx
    exact hfx ▸ hs
  · rw [if_neg hb] at hfx
    exact hfx ▸ h x hx

theorem db_delete_absent_preserved (db : Db) (j i : Nat)
    (h : ∀ r ∈ db.rows, r.id ≠ i) :
    ∀ r ∈ (db_delete db j).rows, r.id ≠ i := by
  intro r hr
  exact h r (List.mem_filter.mp hr).1

theorem db_save_exists_id (db : Db) (s : AccessAttempt) (i : Nat)
    (h : ∃ x ∈ db.rows, x.id = i) (hs : s.id ≠ i) :
    ∃ x ∈ (db_save db s).rows, x.id = i := by
  obtain ⟨x, hx, hid⟩ := h
  refine ⟨x, db_save_mem_other db x s hx (hid ▸ hs), hid⟩

theorem db_delete_exists_id (db : Db) (j i : Nat)
    (h : ∃ x ∈ db.rows, x.id = i) (hne : j ≠ i) :
    ∃ x ∈ (db_delete db j).rows, x.id = i := by
  obtain ⟨x, hx, hid⟩ := h
  exact ⟨x, db_delete_mem_other db x j hx (by rw [hid]; exact fun he => hne he.symm), hid⟩

theorem cleanup_mem_preserved (c now : Nat) (l : List AccessAttempt) (db : Db)
    (r : AccessAttempt) (hr : r ∈ db.rows) (h : ∀ b ∈ l, b.id ≠ r.id) :
    r ∈ (cleanup_loop c now db l).1.rows := by
  induction l generalizing db with
  | nil => exact hr
  | cons a rest ih =>
    have ha : a.id ≠ r.id := h a (List.mem_cons_self a rest)
    have hrest : ∀ b ∈ rest, b.id ≠ r.id := fun b hb => h b (List.mem_cons_of_mem a hb)
    unfold cleanup_loop
    by_cases h1 : a.attempt_time + c < now
    · rw [if_pos h1]
      by_cases h2 : a.trusted = true
      · rw [if_pos h2]
        exact ih (db_save db { a with failures_since_start := 0 }) (db_save_mem_other db r _ hr ha) hrest
      · rw [if_neg h2]
        exact ih (db_delete db a.id) (db_delete_mem_other db r a.id hr (fun he => ha he.symm)) hrest
    · rw [if_neg h1]
      exact ih db hr hrest

theorem cleanup_exists_id (c now : Nat) (l : List AccessAttempt) (db : Db) (i : Nat)
    (h : ∃ x ∈ db.rows, x.id = i) (hl : ∀ b ∈ l, b.id ≠ i) :
    ∃ x ∈ (cleanup_loop c now db l).1.rows, x.id = i := by
  induction l generalizing db with
  | nil => exact h
  | cons a rest ih =>
    have ha : a.id ≠ i := hl a (List.mem_cons_self a rest)
    have hrest : ∀ b ∈ rest, b.id ≠ i := fun b hb => hl b (List.mem_cons_of_mem a hb)
    unfold cleanup_loop
    by_cases h1 : a.attempt_time + c < now
    · rw [if_pos h1]
      by_cases h2 : a.trusted = true
      · rw [if_pos h2]
        exact ih (db_save db { a with failures_since_start := 0 }) (db_save_exists_id db _ i h ha) hrest
      · rw [if_neg h2]
        exact ih (db_delete db a.id) (db_delete_exists_id db a.id i h ha) hrest
    · rw [if_neg h1]
      exact ih db h hrest

theorem cleanup_id_absent (c now : Nat) (l : List AccessAttempt) (db : Db) (i : Nat)
    (hdb : ∀ r ∈ db.rows, r.id ≠ i) (hl : ∀ b ∈ l, b.id ≠ i) :
    ∀ r ∈ (cleanup_loop c now db l).1.rows, r.id ≠ i := by
  induction l generalizing db with
  | nil => exact hdb
  | cons a rest ih =>
    have ha : a.id ≠ i := hl a (List.mem_cons_self a rest)
    have hrest : ∀ b ∈ rest, b.id ≠ i := fun b hb => hl b (List.mem_cons_of_mem a hb)
    unfold cleanup_loop
    by_cases h1 : a.attempt_time + c < now
    · rw [if_pos h1]
      by_cases h2 : a.trusted = true
      · rw [if_pos h2]
        exact ih (db_save db { a with failures_since_start := 0 })
          (db_save_id_absent db _ i hdb ha) hrest
      · rw [if_neg h2]
        exact ih (db_delete db a.id) (db_delete_absent_preserved db a.id i hdb) hrest
    · rw [if_neg h1]
      exact ih db hdb hrest

theorem cleanup_deleted_flag (c now : Nat) (l : List AccessAttempt) (db : Db) :
    (cleanup_loop c now db l).2.2 =
      l.any (fun a => decide (a.attempt_time + c < now) && !a.trusted) := by
  induction l generalizing db with
  | nil => rfl
  | cons a rest ih =>
    unfold cleanup_loop
    by_cases h1 : a.attempt_time + c < now
    · by_cases h2 : a.trusted = true
      · rw [if_pos h1, if_pos h2]
        simp [List.any_cons, h1, h2, ih]
      · simp only [Bool.not_eq_true] at h2
        rw [if_pos h1, if_neg (by simp [h2])]
        simp [List.any_cons, h1, h2]
    · rw [if_neg h1]
      simp [List.any_cons, h1, ih]

theorem cleanup_loop_cons_save (c now : Nat) (a : AccessAttempt)
    (rest : List AccessAttempt) (db : Db)
    (hexp : a.attempt_time + c < now) (htr : a.trusted = true) :
    cleanup_loop c now db (a :: rest) =
      ((cleanup_loop c now (db_save db { a with failures_since_start := 0 }) rest).1,
       { a with failures_since_start := 0 } ::
         (cleanup_loop c now (db_save db { a with failures_since_start := 0 }) rest).2.1,
       (cleanup_loop c now (db_save db { a with failures_since_start := 0 }) rest).2.2) := by
  simp only [cleanup_loop]
  rw [if_pos hexp, if_pos htr]

theorem cleanup_loop_cons_del (c now : Nat) (a : AccessAttempt)
    (rest : List AccessAttempt) (db : Db)
    (hexp : a.attempt_time + c < now) (hun : ¬ a.trusted = true) :
    cleanup_loop c now db (a :: rest) =
      ((cleanup_loop c now (db_delete db a.id) rest).1,
       a :: (cleanup_loop c now (db_delete db a.id) rest).2.1, true) := by
  simp only [cleanup_loop]
  rw [if_pos hexp, if_neg hun]

theorem cleanup_loop_cons_skip (c now : Nat) (a : AccessAttempt)
    (rest : List AccessAttempt) (db : Db)
    (h : ¬ a.attempt_time + c < now) :
    cleanup_loop c now db (a :: rest) =
      ((cleanup_loop c now db rest).1, a :: (cleanup_loop c now db rest).2.1,
       (cleanup_loop c now db rest).2.2) := by
  simp only [cleanup_loop]
  rw [if_neg h]

theorem cleanup_loop_append (c now : Nat) (l1 l2 : List AccessAttempt) (db : Db) :
    (cleanup_loop c now db (l1 ++ l2)).1 =
      (cleanup_loop c now (cleanup_loop c now db l1).1 l2).1 := by
  induction l1 generalizing db with
  | nil => rfl
  | cons a rest ih =>
    rw [List.cons_append]
    by_cases h1 : a.attempt_time + c < now
    · by_cases h2 : a.trusted = true
      · rw [cleanup_loop_cons_save c now a (rest ++ l2) db h1 h2,
          cleanup_loop_cons_save c now a rest db h1 h2]
        exact ih (db_save db { a with failures_since_start := 0 })
      · rw [cleanup_loop_cons_del c now a (rest ++ l2) db h1 h2,
          cleanup_loop_cons_del c now a rest db h1 h2]
        exact ih (db_delete db a.id)
    · rw [cleanup_loop_cons_skip c now a (rest ++ l2) db h1,
        cleanup_loop_cons_skip c now a rest db h1]
      exact ih db

theorem cleanup_trusted_persist (c now : Nat) (l : List AccessAttempt) (db : Db)
    (a : AccessAttempt) (ha : a ∈ l)
    (hexp : a.attempt_time + c < now) (htr : a.trusted = true)
    (hids : (l.map (fun x => x.id)).Nodup)
    (hpre : ∃ x ∈ db.rows, x.id = a.id) :
    { a with failures_since_start := 0 } ∈ (cleanup_loop c now db l).1.rows := by
  obtain ⟨l1, l2, rfl⟩ := List.append_of_mem ha
  rw [List.map_append, List.map_cons] at hids
  have hnd := List.nodup_append.mp hids
  have h1ne : ∀ b ∈ l1, b.id ≠ a.id := by
    intro b hb he
    exact hnd.2.2 (List.mem_map_of_mem _ hb) (he ▸ List.mem_cons_self _ _)
  have h2ne : ∀ b ∈ l2, b.id ≠ a.id := by
    intro b hb he
    exact (List.nodup_cons.mp hnd.2.1).1 (he ▸ List.mem_map_of_mem _ hb)
  rw [cleanup_loop_append]
  obtain ⟨x, hx, hxid⟩ := cleanup_exists_id c now l1 db a.id hpre h1ne
  rw [cleanup_loop_cons_save c now a l2 _ hexp htr]
  apply cleanup_mem_preserved
  · exact db_save_mem_self _ _ x hx hxid
  · exact h2ne

theorem cleanup_untrusted_deleted (c now : Nat) (l : List AccessAttempt) (db : Db)
    (a : AccessAttempt) (ha : a ∈ l)
    (hexp : a.attempt_time + c < now) (hun : a.trusted = false)
    (hids : (l.map (fun x => x.id)).Nodup) :
    ∀ r ∈ (cleanup_loop c now db l).1.rows, r.id ≠ a.id := by
  obtain ⟨l1, l2, rfl⟩ := List.append_of_mem ha
  rw [List.map_append, List.map_cons] at hids
  have hnd := List.nodup_append.mp hids
  have h2ne : ∀ b ∈ l2, b.id ≠ a.id := by
    intro b hb he
    exact (List.nodup_cons.mp hnd.2.1).1 (he ▸ List.mem_map_of_mem _ hb)
  rw [cleanup_loop_append]
  rw [cleanup_loop_cons_del c now a l2 _ hexp (by simp [hun])]
  apply cleanup_id_absent
  · exact db_delete_id_absent _ a.id
  · exact h2ne

theorem uattempts_sublist (cfg : Config) (db : Db) (req : Request)
    (l : List AccessAttempt) (h : _get_user_attempts cfg db req = .ok l) :
    l.Sublist db.rows := by
  unfold _get_user_attempts at h
  cases hip : get_ip cfg req with
  | error e => rw [hip] at h; cases h
  | ok ip =>
    rw [hip] at h
    dsimp only at h
    by_cases hua : cfg.USE_USER_AGENT = true
    · simp only [hua, if_true] at h
      split at h
      · injection h with h2
        exact h2 ▸ List.filter_sublist _
      · injection h with h2
        exact h2 ▸ List.filter_sublist _
    · simp only [Bool.not_eq_true] at hua
      simp only [hua, Bool.false_eq_true, if_false] at h
      split at h
      · injection h with h2
        exact h2 ▸ List.filter_sublist _
      · injection h with h2
        exact h2 ▸ List.filter_sublist _

theorem uattempts_ok_get_ip (cfg : Config) (db : Db) (req : Request)
    (l : List AccessAttempt) (h : _get_user_attempts cfg db req = .ok l) :
    ∃ ip, get_ip cfg req = .ok ip := by
  unfold _get_user_attempts at h
  cases hip : get_ip cfg req with
  | error e => rw [hip] at h; cases h
  | ok ip => exact ⟨ip, rfl⟩

theorem ite_ok_exists {α : Type} (c : Prop) [Decidable c] (A B : α) :
    ∃ l, (if c then Except.ok (ε := PyExc) A else .ok B) = .ok l := by
  by_cases h : c
  · exact ⟨A, if_pos h⟩
  · exact ⟨B, if_neg h⟩

theorem uattempts_ok (cfg : Config) (db : Db) (req : Request) (ip : Str)
    (hip : get_ip cfg req = .ok ip) :
    ∃ l, _get_user_attempts cfg db req = .ok l := by
  unfold _get_user_attempts
  rw [hip]
  dsimp only
  exact ite_ok_exists _ _ _

/-- C5: with a cool-off duration configured, every fetched record whose
    attempt time plus the cool-off is earlier than now is reset to zero
    failures but kept when trusted, and removed from the store when
    untrusted; and whenever a deletion happened the returned attempts are a
    fresh re-execution of the lookup on the cleaned store. -/
theorem cooloff_cleanup_c5 (cfg : Config) (db : Db) (req : Request) (now c : Nat)
    (atts : List AccessAttempt)
    (hc : cooloffTruthy cfg = some c)
    (hl : _get_user_attempts cfg db req = .ok atts)
    (hwf : dbWf db) :
    ∃ db2 atts2, get_user_attempts cfg db req now = .ok (db2, atts2) ∧
      (∀ a ∈ atts, a.attempt_time + c < now → a.trusted = true →
        { a with failures_since_start := 0 } ∈ db2.rows) ∧
      (∀ a ∈ atts, a.attempt_time + c < now → a.trusted = false →
        ∀ r ∈ db2.rows, r.id ≠ a.id) ∧
      ((∃ a ∈ atts, a.attempt_time + c < now ∧ a.trusted = false) →
        _get_user_attempts cfg db2 req = .ok atts2) := by
  have hsub := uattempts_sublist cfg db req atts hl
  have hids : (atts.map (fun x => x.id)).Nodup :=
    hwf.1.sublist (hsub.map (fun x => x.id))
  have hmem : ∀ a ∈ atts, a ∈ db.rows := fun a ha => hsub.mem ha
  have hK1 : ∀ a ∈ atts, a.attempt_time + c < now → a.trusted = true →
      { a with failures_since_start := 0 } ∈ (cleanup_loop c now db atts).1.rows := by
    intro a ha hexp htr
    exact cleanup_trusted_persist c now atts db a ha hexp htr hids
      ⟨a, hmem a ha, rfl⟩
  have hK2 : ∀ a ∈ atts, a.attempt_time + c < now → a.trusted = false →
      ∀ r ∈ (cleanup_loop c now db atts).1.rows, r.id ≠ a.id := by
    intro a ha hexp hun
    exact cleanup_untrusted_deleted c now atts db a ha hexp hun hids
  unfold get_user_attempts
  rw [hl, hc]
  dsimp only
  by_cases hdel : (cleanup_loop c now db atts).2.2 = true
  · rw [if_pos hdel]
    obtain ⟨ip, hip⟩ := uattempts_ok_get_ip cfg db req atts hl
    obtain ⟨fresh, hfresh⟩ := uattempts_ok cfg (cleanup_loop c now db atts).1 req ip hip
    rw [hfresh]
    exact ⟨(cleanup_loop c now db atts).1, fresh, rfl, hK1, hK2, fun _ => hfresh⟩
  · rw [if_neg hdel]
    refine ⟨(cleanup_loop c now db atts).1, (cleanup_loop c now db atts).2.1, rfl,
      hK1, hK2, ?_⟩
    intro ⟨a, ha, hexp, hun⟩
    exfalso
    apply hdel
    rw [cleanup_deleted_flag]
    exact List.any_eq_true.mpr ⟨a, ha, by simp [hexp, hun]⟩

theorem cooloff_cleanup_c5_witness :
    (cooloffTruthy cfgCooloff = some 5 ∧
      _get_user_attempts cfgCooloff dbStale reqPlain = .ok [recStale] ∧
      dbWf dbStale) ∧
    (∃ db2 atts2, get_user_attempts cfgCooloff dbStale reqPlain 10 = .ok (db2, atts2) ∧
      (∀ a ∈ [recStale], a.attempt_time + 5 < 10 → a.trusted = true →
        { a with failures_since_start := 0 } ∈ db2.rows) ∧
      (∀ a ∈ [recStale], a.attempt_time + 5 < 10 → a.trusted = false →
        ∀ r ∈ db2.rows, r.id ≠ a.id) ∧
      ((∃ a ∈ [recStale], a.attempt_time + 5 < 10 ∧ a.trusted = false) →
        _get_user_attempts cfgCooloff db2 reqPlain = .ok atts2)) :=
  ⟨⟨by decide, by decide, by decide⟩,
    cooloff_cleanup_c5 cfgCooloff dbStale reqPlain 10 5 [recStale] (by decide) (by decide)
      (by decide)⟩

theorem success_cleanup_cons_del (a : AccessAttempt) (rest : List AccessAttempt)
    (db : Db) (hun : a.trusted = false) :
    success_cleanup db (a :: rest) = success_cleanup (db_delete db a.id) rest := by
  simp only [success_cleanup]
  rw [if_pos (by simp [hun])]

theorem success_cleanup_cons_save (a : AccessAttempt) (rest : List AccessAttempt)
    (db : Db) (htr : a.trusted = true) :
    success_cleanup db (a :: rest) =
      ((success_cleanup (db_save db { a with failures_since_start := 0 }) rest).1,
        true) := by
  simp only [success_cleanup]
  rw [if_neg (by simp [htr])]

theorem success_cleanup_append (l1 l2 : List AccessAttempt) (db : Db) :
    (success_cleanup db (l1 ++ l2)).1 =
      (success_cleanup (success_cleanup db l1).1 l2).1 := by
  induction l1 generalizing db with
  | nil => rfl
  | cons a rest ih =>
    rw [List.cons_append]
    by_cases htr : a.trusted = true
    · rw [success_cleanup_cons_save a (rest ++ l2) db htr,
        success_cleanup_cons_save a rest db htr]
      exact ih (db_save db { a with failures_since_start := 0 })
    · simp only [Bool.not_eq_true] at htr
      rw [success_cleanup_cons_del a (rest ++ l2) db htr,
        success_cleanup_cons_del a rest db htr]
      exact ih (db_delete db a.id)

theorem success_cleanup_flag (l : List AccessAttempt) (db : Db) :
    (success_cleanup db l).2 = l.any (fun a => a.trusted) := by
  induction l generalizing db with
  | nil => rfl
  | cons a rest ih =>
    by_cases htr : a.trusted = true
    · rw [success_cleanup_cons_save a rest db htr]
      simp [htr]
    · simp only [Bool.not_eq_true] at htr
      rw [success_cleanup_cons_del a rest db htr]
      simp [htr, ih]

theorem success_mem_preserved (l : List AccessAttempt) (db : Db)
    (r : AccessAttempt) (hr : r ∈ db.rows) (h : ∀ b ∈ l, b.id ≠ r.id) :
    r ∈ (success_cleanup db l).1.rows := by
  induction l generalizing db with
  | nil => exact hr
  | cons a rest ih =>
    have ha : a.id ≠ r.id := h a (List.mem_cons_self a rest)
    have hrest : ∀ b ∈ rest, b.id ≠ r.id := fun b hb => h b (List.mem_cons_of_mem a hb)
    by_cases htr : a.trusted = true
    · rw [success_cleanup_cons_save a rest db htr]
      exact ih (db_save db { a with failures_since_start := 0 })
        (db_save_mem_other db r _ hr ha) hrest
    · simp only [Bool.not_eq_true] at htr
      rw [success_cleanup_cons_del a rest db htr]
      exact ih (db_delete db a.id)
        (db_delete_mem_other db r a.id hr (fun he => ha he.symm)) hrest

theorem success_exists_id (l : List AccessAttempt) (db : Db) (i : Nat)
    (h : ∃ x ∈ db.rows, x.id = i) (hl : ∀ b ∈ l, b.id ≠ i) :
    ∃ x ∈ (success_cleanup db l).1.rows, x.id = i := by
  induction l generalizing db with
  | nil => exact h
  | cons a rest ih =>
    have ha : a.id ≠ i := hl a (List.mem_cons_self a rest)
    have hrest : ∀ b ∈ rest, b.id ≠ i := fun b hb => hl b (List.mem_cons_of_mem a hb)
    by_cases htr : a.trusted = true
    · rw [success_cleanup_cons_save a rest db htr]
      exact ih (db_save db { a with failures_since_start := 0 })
        (db_save_exists_id db _ i h ha) hrest
    · simp only [Bool.not_eq_true] at htr
      rw [success_cleanup_cons_del a rest db htr]
      exact ih (db_delete db a.id) (db_delete_exists_id db a.id i h ha) hrest

theorem success_id_absent (l : List AccessAttempt) (db : Db) (i : Nat)
    (hdb : ∀ r ∈ db.rows, r.id ≠ i) (hl : ∀ b ∈ l, b.id ≠ i) :
    ∀ r ∈ (success_cleanup db l).1.rows, r.id ≠ i := by
  induction l generalizing db with
  | nil => exact hdb
  | cons a rest ih =>
    have ha : a.id ≠ i := hl a (List.mem_cons_self a rest)
    have hrest : ∀ b ∈ rest, b.id ≠ i := fun b hb => hl b (List.mem_cons_of_mem a hb)
    by_cases htr : a.trusted = true
    · rw [success_cleanup_cons_save a rest db htr]
      exact ih (db_save db { a with failures_since_start := 0 })
        (db_save_id_absent db _ i hdb ha) hrest
    · simp only [Bool.not_eq_true] at htr
      rw [success_cleanup_cons_del a rest db htr]
      exact ih (db_delete db a.id) (db_delete_absent_preserved db a.id i hdb) hrest

theorem success_trusted_persist (l : List AccessAttempt) (db : Db)
    (a : AccessAttempt) (ha : a ∈ l) (htr : a.trusted = true)
    (hids : (l.map (fun x => x.id)).Nodup)
    (hpre : ∃ x ∈ db.rows, x.id = a.id) :
    { a with failures_since_start := 0 } ∈ (success_cleanup db l).1.rows := by
  obtain ⟨l1, l2, rfl⟩ := List.append_of_mem ha
  rw [List.map_append, List.map_cons] at hids
  have hnd := List.nodup_append.mp hids
  have h1ne : ∀ b ∈ l1, b.id ≠ a.id := by
    intro b hb he
    exact hnd.2.2 (List.mem_map_of_mem _ hb) (he ▸ List.mem_cons_self _ _)
  have h2ne : ∀ b ∈ l2, b.id ≠ a.id := by
    intro b hb he
    exact (List.nodup_cons.mp hnd.2.1).1 (he ▸ List.mem_map_of_mem _ hb)
  rw [success_cleanup_append]
  obtain ⟨x, hx, hxid⟩ := success_exists_id l1 db a.id hpre h1ne
  rw [success_cleanup_cons_save a l2 _ htr]
  exact success_mem_preserved l2 _ _ (db_save_mem_self _ _ x hx hxid) h2ne

theorem success_untrusted_deleted (l : List AccessAttempt) (db : Db)
    (a : AccessAttempt) (ha : a ∈ l) (hun : a.trusted = false)
    (hids : (l.map (fun x => x.id)).Nodup) :
    ∀ r ∈ (success_cleanup db l).1.rows, r.id ≠ a.id := by
  obtain ⟨l1, l2, rfl⟩ := List.append_of_mem ha
  rw [List.map_append, List.map_cons] at hids
  have hnd := List.nodup_append.mp hids
  have h2ne : ∀ b ∈ l2, b.id ≠ a.id := by
    intro b hb he
    exact (List.nodup_cons.mp hnd.2.1).1 (he ▸ List.mem_map_of_mem _ hb)
  rw [success_cleanup_append]
  rw [success_cleanup_cons_del a l2 _ hun]
  exact success_id_absent l2 _ a.id (db_delete_id_absent _ a.id) h2ne

theorem success_sublist_of_untrusted (l : List AccessAttempt) (db : Db)
    (h : ∀ a ∈ l, a.trusted = false) :
    (success_cleanup db l).1.rows.Sublist db.rows := by
  induction l generalizing db with
  | nil => exact List.Sublist.refl _
  | cons a rest ih =>
    have ha : a.trusted = false := h a (List.mem_cons_self a rest)
    have hrest : ∀ b ∈ rest, b.trusted = false := fun b hb => h b (List.mem_cons_of_mem a hb)
    rw [success_cleanup_cons_del a rest db ha]
    exact (ih (db_delete db a.id) hrest).trans (List.filter_sublist _)

theorem success_seq_eq (l : List AccessAttempt) (db : Db) :
    (success_cleanup db l).1.seq = db.seq := by
  induction l generalizing db with
  | nil => rfl
  | cons a rest ih =>
    by_cases htr : a.trusted = true
    · rw [success_cleanup_cons_save a rest db htr]
      exact ih (db_save db { a with failures_since_start := 0 })
    · simp only [Bool.not_eq_true] at htr
      rw [success_cleanup_cons_del a rest db htr]
      exact ih (db_delete db a.id)

theorem guattempts_ok_get_ip (cfg : Config) (db : Db) (req : Request) (now : Nat)
    (p : Db × List AccessAttempt) (h : get_user_attempts cfg db req now = .ok p) :
    ∃ ip, get_ip cfg req = .ok ip := by
  unfold get_user_attempts at h
  cases hga : _get_user_attempts cfg db req with
  | error e => rw [hga] at h; cases h
  | ok l => exact uattempts_ok_get_ip cfg db req l hga

/-- C6: on a successful login outcome, every matched untrusted record is
    deleted and every matched trusted record is reset to zero failures and
    kept; when no trusted record was among the matches, exactly one new
    trusted record with zero failures is appended — unless the submitted
    username is falsy, in which case nothing is created, and a success with
    no matches leaves the store unchanged. -/
theorem success_path_c6 (cfg : Config) (users : List UserRec) (db : Db)
    (req : Request) (now : Nat) (db1 : Db) (atts : List AccessAttempt)
    (hl : get_user_attempts cfg db req now = .ok (db1, atts))
    (hmem : ∀ a ∈ atts, a ∈ db1.rows)
    (hnd : (atts.map (fun x => x.id)).Nodup)
    (hwf1 : dbWf db1)
    (hlim : 0 < cfg.FAILURE_LIMIT) :
    ∃ db2, check_request cfg users db req now false = .ok (true, db2) ∧
      (∀ a ∈ atts, a.trusted = false → ∀ r ∈ db2.rows, r.id ≠ a.id) ∧
      (∀ a ∈ atts, a.trusted = true →
        { a with failures_since_start := 0 } ∈ db2.rows) ∧
      ((∀ a ∈ atts, a.trusted = false) → usernameTruthy cfg req = true →
        ∃ rows2 r, db2.rows = rows2 ++ [r] ∧ r.trusted = true ∧
          r.failures_since_start = 0 ∧ r.username = usernameOf cfg req ∧
          rows2.Sublist db1.rows) ∧
      ((∀ a ∈ atts, a.trusted = false) → usernameTruthy cfg req = false →
        db2.rows.Sublist db1.rows) ∧
      (atts = [] → usernameTruthy cfg req = false → db2 = db1) := by
  obtain ⟨ip, hip⟩ := guattempts_ok_get_ip cfg db req now (db1, atts) hl
  have hflim : (decide (cfg.FAILURE_LIMIT ≤ 0)) = false :=
    decide_eq_false (by omega)
  unfold check_request
  rw [hip]
  dsimp only
  rw [hl]
  dsimp only
  simp only [Bool.false_eq_true, if_false]
  by_cases hex : (success_cleanup db1 atts).2 = true
  · -- a trusted record existed among the matches
    simp only [hex, Bool.not_true, Bool.false_eq_true, if_false]
    simp only [ge_iff_le, hflim, Bool.false_and, if_false]
    refine ⟨(success_cleanup db1 atts).1, rfl, ?_, ?_, ?_, ?_, ?_⟩
    · intro a ha hun
      exact success_untrusted_deleted atts db1 a ha hun hnd
    · intro a ha htr
      exact success_trusted_persist atts db1 a ha htr hnd ⟨a, hmem a ha, rfl⟩
    · intro hall _
      exfalso
      rw [success_cleanup_flag] at hex
      obtain ⟨a, ha, htra⟩ := List.any_eq_true.mp hex
      exact absurd htra (by simp [hall a ha])
    · intro hall _
      exfalso
      rw [success_cleanup_flag] at hex
      obtain ⟨a, ha, htra⟩ := List.any_eq_true.mp hex
      exact absurd htra (by simp [hall a ha])
    · intro hnil _
      exfalso
      rw [hnil, success_cleanup_flag] at hex
      exact absurd hex (by simp)
  · -- no trusted record among the matches
    simp only [Bool.not_eq_true] at hex
    simp only [hex, Bool.not_false, if_true]
    have hall : ∀ a ∈ atts, a.trusted = false := by
      rw [success_cleanup_flag] at hex
      exact fun a ha => by simpa using List.any_eq_false.mp hex a ha
    unfold create_new_trusted_record
    rw [hip]
    dsimp only
    by_cases hun : usernameTruthy cfg req = true
    · -- username truthy: one trusted record is appended
      simp only [hun, Bool.not_true, Bool.false_eq_true, if_false]
      simp only [ge_iff_le, hflim, Bool.false_and, if_false]
      refine ⟨_, rfl, ?_, ?_, ?_, ?_, ?_⟩
      · intro a ha hu
        intro r hr
        unfold db_create at hr
        rcases List.mem_append.mp hr with hr2 | hr2
        · exact success_untrusted_deleted atts db1 a ha hu hnd r hr2
        · rcases List.mem_singleton.mp hr2 with rfl
          show (success_cleanup db1 atts).1.seq ≠ a.id
          rw [success_seq_eq atts db1]
          have hlt : a.id < db1.seq := hwf1.2 a (hmem a ha)
          omega
      · intro a ha htr
        exact absurd htr (by simp [hall a ha])
      · intro _ _
        refine ⟨(success_cleanup db1 atts).1.rows, _, rfl, rfl, rfl, rfl, ?_⟩
        exact success_sublist_of_untrusted atts db1 hall
      · intro _ hfalsy
        exact absurd hfalsy (by decide)
      · intro _ hfalsy
        exact absurd hfalsy (by decide)
    · -- username falsy: nothing is created
      simp only [Bool.not_eq_true] at hun
      simp only [hun, Bool.not_false, if_true]
      simp only [ge_iff_le, hflim, Bool.false_and, if_false]
      refine ⟨(success_cleanup db1 atts).1, rfl, ?_, ?_, ?_, ?_, ?_⟩
      · intro a ha hu
        exact success_untrusted_deleted atts db1 a ha hu hnd
      · intro a ha htr
        exact absurd htr (by simp [hall a ha])
      · intro _ htruthy
        exact absurd htruthy (by simp [hun])
      · intro _ _
        exact success_sublist_of_untrusted atts db1 hall
      · intro hnil _
        rw [hnil]
        rfl

theorem success_path_c6_witness :
    (get_user_attempts axesDefaults dbStale reqPlain 1 = .ok (dbStale, [recStale]) ∧
      (∀ a ∈ [recStale], a ∈ dbStale.rows) ∧
      (([recStale].map (fun x => x.id)).Nodup) ∧
      dbWf dbStale ∧ 0 < axesDefaults.FAILURE_LIMIT) ∧
    (∃ db2, check_request axesDefaults [] dbStale reqPlain 1 false = .ok (true, db2) ∧
      (∀ a ∈ [recStale], a.trusted = false → ∀ r ∈ db2.rows, r.id ≠ a.id) ∧
      (∀ a ∈ [recStale], a.trusted = true →
        { a with failures_since_start := 0 } ∈ db2.rows) ∧
      ((∀ a ∈ [recStale], a.trusted = false) →
        usernameTruthy axesDefaults reqPlain = true →
        ∃ rows2 r, db2.rows = rows2 ++ [r] ∧ r.trusted = true ∧
          r.failures_since_start = 0 ∧ r.username = usernameOf axesDefaults reqPlain ∧
          rows2.Sublist dbStale.rows) ∧
      ((∀ a ∈ [recStale], a.trusted = false) →
        usernameTruthy axesDefaults reqPlain = false →
        db2.rows.Sublist dbStale.rows) ∧
      ([recStale] = ([] : List AccessAttempt) →
        usernameTruthy axesDefaults reqPlain = false → db2 = dbStale)) :=
  ⟨⟨by decide, by decide, by decide, by decide, by decide⟩,
    success_path_c6 axesDefaults [] dbStale reqPlain 1 dbStale [recStale]
      (by decide) (by decide) (by decide) (by decide) (by decide)⟩

theorem axesDefaults_UA : axesDefaults.USE_USER_AGENT = false := rfl

theorem axesDefaults_comb :
    should_lock_out_by_combination_user_and_ip axesDefaults = false := rfl

theorem axesDefaults_limit : axesDefaults.FAILURE_LIMIT = 3 := rfl

theorem axesDefaults_lock : axesDefaults.LOCK_OUT_AT_FAILURE = true := rfl

theorem axesDefaults_cooloff : cooloffTruthy axesDefaults = none := rfl

theorem axesDefaults_onlywl : axesDefaults.ONLY_WHITELIST = false := rfl

theorem axesDefaults_wl (ip : Str) : ip_in_whitelist axesDefaults ip = false := rfl

theorem axesDefaults_bl (ip : Str) : ip_in_blacklist axesDefaults ip = false := rfl

theorem gua_nocooloff (cfg : Config) (db : Db) (req : Request) (now : Nat)
    (l : List AccessAttempt)
    (hc : cooloffTruthy cfg = none) (h : _get_user_attempts cfg db req = .ok l) :
    get_user_attempts cfg db req now = .ok (db, l) := by
  unfold get_user_attempts
  rw [h]
  dsimp only
  rw [hc]

theorem c1_lookup_empty (req : Request) :
    _get_user_attempts axesDefaults dbEmpty req = .ok [] := by
  unfold _get_user_attempts
  rw [get_ip_nonproxy axesDefaults req rfl]
  dsimp only
  simp [axesDefaults_UA, dbEmpty]

theorem c1_lookup_untrusted (req : Request) (r : AccessAttempt) (s : Nat)
    (hip : r.ip_address = get_ip_address_from_request req)
    (hun : r.username = usernameOf axesDefaults req)
    (htr : r.trusted = false) :
    _get_user_attempts axesDefaults { rows := [r], seq := s } req = .ok [r] := by
  unfold _get_user_attempts
  rw [get_ip_nonproxy axesDefaults req rfl]
  dsimp only
  simp [axesDefaults_UA, axesDefaults_comb, List.filter, hip, hun, htr]

theorem c1_step1 (req : Request) (users : List UserRec) (n : Nat) :
    check_request axesDefaults users dbEmpty req n true = .ok (true, c1Db1 req n) := by
  unfold check_request
  rw [get_ip_nonproxy axesDefaults req rfl]
  dsimp only
  rw [gua_nocooloff axesDefaults dbEmpty req n [] axesDefaults_cooloff (c1_lookup_empty req)]
  dsimp only
  unfold create_new_failure_records
  rw [get_ip_nonproxy axesDefaults req rfl]
  simp [axesDefaults_limit, db_create, dbEmpty, c1Db1, failRec1]

theorem c1_step2 (req : Request) (users : List UserRec) (n1 n2 : Nat) :
    check_request axesDefaults users (c1Db1 req n1) req n2 true =
      .ok (true, c1Db2 req n1 n2) := by
  unfold check_request
  rw [get_ip_nonproxy axesDefaults req rfl]
  dsimp only
  rw [gua_nocooloff axesDefaults (c1Db1 req n1) req n2 [failRec1 req n1]
    axesDefaults_cooloff (c1_lookup_untrusted req (failRec1 req n1) 1 rfl rfl rfl)]
  dsimp only
  simp [axesDefaults_limit, update_attempts, db_save, c1Db1, c1Db2, failRec1,
    update_one]

theorem c1_step3 (req : Request) (users : List UserRec) (n1 n2 n4 : Nat)
    (hlk : is_user_lockable axesDefaults users req = true) :
    check_request axesDefaults users (c1Db2 req n1 n2) req n4 true =
      .ok (false, c1Db3 req n1 n2 n4) := by
  unfold check_request
  rw [get_ip_nonproxy axesDefaults req rfl]
  dsimp only
  rw [gua_nocooloff axesDefaults (c1Db2 req n1 n2) req n4
    [update_one axesDefaults req n2 2 (failRec1 req n1)]
    axesDefaults_cooloff
    (c1_lookup_untrusted req (update_one axesDefaults req n2 2 (failRec1 req n1)) 1
      rfl rfl rfl)]
  dsimp only
  simp [axesDefaults_limit, axesDefaults_lock, hlk, update_attempts, db_save,
    c1Db2, c1Db3, failRec1, update_one, revoke_trusted, List.filter]

theorem c1_gate2 (req : Request) (users : List UserRec) (n1 n2 n3 : Nat) :
    is_already_locked axesDefaults users (c1Db2 req n1 n2) req n3 =
      .ok (false, c1Db2 req n1 n2) := by
  unfold is_already_locked
  rw [get_ip_nonproxy axesDefaults req rfl]
  dsimp only
  rw [gua_nocooloff axesDefaults (c1Db2 req n1 n2) req n3
    [update_one axesDefaults req n2 2 (failRec1 req n1)]
    axesDefaults_cooloff
    (c1_lookup_untrusted req (update_one axesDefaults req n2 2 (failRec1 req n1)) 1
      rfl rfl rfl)]
  simp [axesDefaults_onlywl, axesDefaults_wl, axesDefaults_bl, axesDefaults_limit,
    update_one, failRec1]

theorem c1_gate3 (req : Request) (users : List UserRec) (n1 n2 n4 n5 : Nat)
    (hlk : is_user_lockable axesDefaults users req = true) :
    is_already_locked axesDefaults users (c1Db3 req n1 n2 n4) req n5 =
      .ok (true, c1Db3 req n1 n2 n4) := by
  unfold is_already_locked
  rw [get_ip_nonproxy axesDefaults req rfl]
  dsimp only
  rw [gua_nocooloff axesDefaults (c1Db3 req n1 n2 n4) req n5
    [update_one axesDefaults req n4 3 (update_one axesDefaults req n2 2 (failRec1 req n1))]
    axesDefaults_cooloff
    (c1_lookup_untrusted req
      (update_one axesDefaults req n4 3 (update_one axesDefaults req n2 2 (failRec1 req n1)))
      1 rfl rfl rfl)]
  simp [axesDefaults_onlywl, axesDefaults_wl, axesDefaults_bl, axesDefaults_limit,
    axesDefaults_lock, hlk, update_one, failRec1]

/-- C1: with the default settings (failure limit 3, lock-out-at-failure on)
    and a lockable user, starting from an empty attempt store, every sequence
    of three consecutive unsuccessful POST attempts under the same identity
    key is blocked by check_request on the third failure, and
    is_already_locked locks the request immediately following it, while after
    only two consecutive failures is_already_locked still reports not locked
    out. -/
theorem lockout_threshold_c1 (req : Request) (users : List UserRec)
    (n1 n2 n3 n4 n5 : Nat)
    (hlk : is_user_lockable axesDefaults users req = true) :
    ∃ d1 d2 d3,
      check_request axesDefaults users dbEmpty req n1 true = .ok (true, d1) ∧
      check_request axesDefaults users d1 req n2 true = .ok (true, d2) ∧
      is_already_locked axesDefaults users d2 req n3 = .ok (false, d2) ∧
      check_request axesDefaults users d2 req n4 true = .ok (false, d3) ∧
      is_already_locked axesDefaults users d3 req n5 = .ok (true, d3) :=
  ⟨c1Db1 req n1, c1Db2 req n1 n2, c1Db3 req n1 n2 n4,
    c1_step1 req users n1,
    c1_step2 req users n1 n2,
    c1_gate2 req users n1 n2 n3,
    c1_step3 req users n1 n2 n4 hlk,
    c1_gate3 req users n1 n2 n4 n5 hlk⟩

theorem lockout_threshold_c1_witness :
    (is_user_lockable axesDefaults [] reqPlain = true) ∧
    (∃ d1 d2 d3,
      check_request axesDefaults [] dbEmpty reqPlain 1 true = .ok (true, d1) ∧
      check_request axesDefaults [] d1 reqPlain 2 true = .ok (true, d2) ∧
      is_already_locked axesDefaults [] d2 reqPlain 3 = .ok (false, d2) ∧
      check_request axesDefaults [] d2 reqPlain 4 true = .ok (false, d3) ∧
      is_already_locked axesDefaults [] d3 reqPlain 5 = .ok (true, d3)) :=
  ⟨by decide, lockout_threshold_c1 reqPlain [] 1 2 3 4 5 (by decide)⟩
